import Mathlib

/-!
Verification development for the unplugin-cloudflare-tunnel plugin
(src/src/index.ts).  The definitions below are a shallow embedding of the
plugin's configuration resolver, control-plane client, resource reconciler,
lifecycle state store and session orchestrator; the theorems settle the
frozen behavioural claims against this embedding.

Remote control-plane interactions are modelled by an explicit remote state
(accounts, zones, tunnels, DNS records, certificate packs) plus a failure
injection record saying which individual API calls throw; process spawning
is modelled by an environment-provided outcome.  Side effects (process
spawns, API calls, kill signals) are recorded in an explicit effect trace.
-/

/-- The consistent error marker carried by every plugin-raised error
(source: the string literal used throughout src/src/index.ts). -/
def marker : String := "[unplugin-cloudflare-tunnel]"

/-- Boolean test that a value of Except is a success. -/
def exceptIsOk {ε α : Type} : Except ε α → Bool
  | .ok _ => true
  | .error _ => false

/-- Substring containment on character lists, mirroring JS String.includes. -/
def listContainsSub (sub : List Char) : List Char → Bool
  | [] => sub.isEmpty
  | c :: cs => sub.isPrefixOf (c :: cs) || listContainsSub sub cs

/-- Does the string contain the plugin error marker as a substring
(mirrors error.message.includes of the marker in the cf catch clause). -/
def includesMarker (s : String) : Bool := listContainsSub marker.toList s.toList

/-- startsWith on strings via their character lists (kernel-reducible
embedding of JS String.startsWith / String.isPrefixOf). -/
def strIsPrefixOf (p s : String) : Bool := p.toList.isPrefixOf s.toList

/-- endsWith on strings via their character lists (kernel-reducible
embedding of JS String.endsWith). -/
def strEndsWith (s suffix : String) : Bool := suffix.toList.isSuffixOf s.toList

/-- Split a character list on a separator character (kernel-reducible
embedding of JS String.split with a one-character separator). -/
def splitChars (sep : Char) : List Char → List (List Char)
  | [] => [[]]
  | c :: cs =>
      let rest := splitChars sep cs
      if c == sep then [] :: rest
      else
        match rest with
        | [] => [[c]]
        | h :: t => (c :: h) :: t

/-- Split a hostname on dots. -/
def splitOnDot (s : String) : List String :=
  (splitChars '.' s.toList).map String.mk

/- ------------------------------------------------------------------ -/
/- Data model: remote entities (src/src/index.ts lines 44-99)          -/
/- ------------------------------------------------------------------ -/

/-- Cloudflare account (AccountSchema). -/
structure Account where
  id : String
  name : String
deriving DecidableEq, Repr

/-- Cloudflare zone (ZoneSchema). -/
structure Zone where
  id : String
  name : String
deriving DecidableEq, Repr

/-- Cloudflare named tunnel (TunnelSchema, the fields the plugin uses). -/
structure Tunnel where
  id : String
  name : String
deriving DecidableEq, Repr

/-- Cloudflare DNS record (DNSRecordSchema). -/
structure DNSRecord where
  id : String
  type : String
  name : String
  content : String
  proxied : Bool
  comment : Option String
deriving DecidableEq, Repr

/-- Certificate pack: id plus its host list (the code reads
cert.hostnames or cert.hosts; modelled as one list). -/
structure CertPack where
  id : String
  hosts : List String
deriving DecidableEq, Repr

/-- The remote control-plane state a named-mode start reconciles against. -/
structure Remote where
  accounts : List Account
  zones : List Zone
  tunnels : List Tunnel
  dnsRecords : List DNSRecord
  certPacks : List CertPack
  totalTlsOn : Bool
deriving DecidableEq, Repr

/-- Failure injection: which individual control-plane calls throw.  Each
field corresponds to one call site in src/src/index.ts. -/
structure Failures where
  accountsList : Bool := false
  zonesParentList : Bool := false
  zonesApexList : Bool := false
  tunnelsList : Bool := false
  tunnelCreate : Bool := false
  dnsList : Bool := false
  dnsDelete : String → Bool := fun _ => false
  certList : Bool := false
  certDelete : String → Bool := fun _ => false
  ingressPut : Bool := false
  dnsEnsureList1 : Bool := false
  dnsEnsureList2 : Bool := false
  dnsEnsureCreate : Bool := false
  tokenGet : Bool := false
  certListEnsure : Bool := false
  totalTlsGet : Bool := false
  certOrder : Bool := false

/-- Observable side effects of a start invocation. -/
inductive Effect where
  | ensureBinary : Effect
  | spawnProcess (args : List String) : Effect
  | apiCall (method : String) (endpoint : String) : Effect
  | killChild (signal : String) : Effect
deriving DecidableEq, Repr

/-- A plugin-marked API failure, as cf raises for a failed call. -/
def apiFail {α : Type} (what : String) : Except String α :=
  .error (marker ++ " API request failed: " ++ what)

/- ------------------------------------------------------------------ -/
/- Configuration resolver (src/src/index.ts lines 229-407)             -/
/- ------------------------------------------------------------------ -/

/-- Raw plugin options as supplied by the user; none models an absent key. -/
structure RawOptions where
  hostname : Option String := none
  apiToken : Option String := none
  accountId : Option String := none
  zoneId : Option String := none
  tunnelName : Option String := none
  dns : Option String := none
  ssl : Option String := none
  cleanupPresent : Bool := false
  cleanupAutoCleanup : Option Bool := none
  port : Option Int := none
  logFile : Option String := none
  logLevel : Option String := none
  debug : Bool := false

/-- Errors raised synchronously by option validation. -/
inductive ConfigError where
  | quickModeInvalidOptions (opts : List String) : ConfigError
  | missingHostname : ConfigError
  | invalidTunnelName : ConfigError
  | invalidPort : ConfigError
  | invalidLogLevel : ConfigError
  | invalidDns : ConfigError
  | invalidSsl : ConfigError
deriving DecidableEq, Repr

/-- Canonical configuration produced by successful option validation. -/
structure ResolvedConfig where
  isQuickMode : Bool
  hostname : Option String
  apiToken : Option String
  accountId : Option String
  zoneId : Option String
  tunnelName : String
  dnsOption : Option String
  sslOption : Option String
  autoCleanup : Bool
  userProvidedPort : Option Nat
  logFile : Option String
  effectiveLogLevel : String
  debug : Bool
deriving DecidableEq, Repr

/-- ASCII letter or digit, the character class of the tunnelName regex. -/
def isAlnumChar (c : Char) : Bool := c.isAlpha || c.isDigit

/-- Character allowed in the middle of a tunnel name. -/
def midChar (c : Char) : Bool := isAlnumChar c || c == '-'

/-- Acceptance of the regex on the hyphen-separated tunnel name, as a
character-list predicate: first and last characters alphanumeric,
interior characters alphanumeric or hyphen. -/
def tunnelNameChars : List Char → Bool
  | [] => false
  | [c] => isAlnumChar c
  | c :: c2 :: cs =>
      isAlnumChar c && ((c2 :: cs).dropLast.all midChar)
        && isAlnumChar ((c2 :: cs).getLastD '-')

/-- Embedding of the tunnelName validation regex test in src/src/index.ts
line 358. -/
def tunnelNameOk (s : String) : Bool := tunnelNameChars s.toList

/-- The persistent-only option keys present in a raw options value, in the
order the source checks them (namedModeOptions filter, lines 293-302). -/
def persistentOnlyPresent (o : RawOptions) : List String :=
  (if o.apiToken.isSome then ["apiToken"] else [])
    ++ (if o.accountId.isSome then ["accountId"] else [])
    ++ (if o.zoneId.isSome then ["zoneId"] else [])
    ++ (if o.tunnelName.isSome then ["tunnelName"] else [])
    ++ (if o.dns.isSome then ["dns"] else [])
    ++ (if o.ssl.isSome then ["ssl"] else [])
    ++ (if o.cleanupPresent then ["cleanup"] else [])

/-- The resolved tunnel name: quick mode uses the fixed name; named mode
applies the JS falsy default, so a missing or empty-string option becomes
"dev-tunnel" (source line 330). -/
def resolveTunnelName (isQuickMode : Bool) (tn : Option String) : String :=
  if isQuickMode then "quick-tunnel"
  else match tn with
    | some s => if s == "" then "dev-tunnel" else s
    | none => "dev-tunnel"

/-- Option validation and resolution, the synchronous body of the plugin
factory before any hook runs (src/src/index.ts lines 289-407).  All checks
happen in source order; an error here precedes every process spawn and
every network call. -/
def validateOptions (o : RawOptions) : Except ConfigError ResolvedConfig :=
  let isQuickMode := o.hostname.isNone
  if isQuickMode && !(persistentOnlyPresent o).isEmpty then
    .error (.quickModeInvalidOptions (persistentOnlyPresent o))
  else
    let hostname := o.hostname
    let tunnelName := resolveTunnelName isQuickMode o.tunnelName
    if !isQuickMode && hostname.getD "" == "" then
      .error .missingHostname
    else if tunnelName != "" && !tunnelNameOk tunnelName then
      .error .invalidTunnelName
    else if (match o.port with
        | some p => p != 0 && (decide (p < 1) || decide (p > 65535))
        | none => false) then
      .error .invalidPort
    else if (match o.logLevel with
        | some l => !(["debug", "info", "warn", "error", "fatal"].contains l)
        | none => false) then
      .error .invalidLogLevel
    else if (match o.dns with
        | some d => !(strIsPrefixOf "*." d) && some d != hostname
        | none => false) then
      .error .invalidDns
    else if (match o.ssl with
        | some s => !(strIsPrefixOf "*." s) && some s != hostname
        | none => false) then
      .error .invalidSsl
    else
      .ok
        { isQuickMode := isQuickMode
          hostname := if isQuickMode then none else hostname
          apiToken := if isQuickMode then none else o.apiToken
          accountId := if isQuickMode then none else o.accountId
          zoneId := if isQuickMode then none else o.zoneId
          tunnelName := tunnelName
          dnsOption := if isQuickMode then none else o.dns
          sslOption := if isQuickMode then none else o.ssl
          autoCleanup := (if isQuickMode then none else o.cleanupAutoCleanup).getD true
          userProvidedPort := o.port.map Int.toNat
          logFile := o.logFile
          effectiveLogLevel :=
            (o.logLevel).getD (if o.debug then "info" else "warn")
          debug := o.debug }

/- ------------------------------------------------------------------ -/
/- Configuration fingerprint (src/src/index.ts 866-873, 957-965,       -/
/- 1471-1478): JSON.stringify over the six-field object literal        -/
/- ------------------------------------------------------------------ -/

/-- JSON string literal (the fingerprint values contain no characters
needing escapes). -/
def jsonStr (s : String) : String := "\"" ++ s ++ "\""

/-- JSON.stringify of an object literal given keys in insertion order;
a none value models a field whose value is undefined, which
JSON.stringify omits. -/
def jsonObj (fields : List (String × Option String)) : String :=
  "\x7b"
    ++ String.intercalate ","
        (fields.filterMap (fun kv =>
          kv.2.map (fun v => jsonStr kv.1 ++ ":" ++ v)))
    ++ "\x7d"

/-- The configuration subset hashed into the fingerprint. -/
structure FingerprintFields where
  isQuickMode : Bool
  hostname : Option String
  port : Nat
  tunnelName : String
  dnsOption : Option String
  sslOption : Option String
deriving DecidableEq, Repr

/-- The fingerprint computed at the start of every invocation
(src/src/index.ts lines 866-873). -/
def newConfigHash (f : FingerprintFields) : String :=
  jsonObj
    [("isQuickMode", some (if f.isQuickMode then "true" else "false")),
     ("hostname", f.hostname.map jsonStr),
     ("port", some (toString f.port)),
     ("tunnelName", some (jsonStr f.tunnelName)),
     ("dnsOption", f.dnsOption.map jsonStr),
     ("sslOption", f.sslOption.map jsonStr)]

/-- The fingerprint stored by the quick-mode port-change update
(src/src/index.ts lines 957-965). -/
def quickUpdatedConfigHash (f : FingerprintFields) (actualPort : Nat) : String :=
  jsonObj
    [("isQuickMode", some (if f.isQuickMode then "true" else "false")),
     ("hostname", f.hostname.map jsonStr),
     ("port", some (toString actualPort)),
     ("tunnelName", some (jsonStr f.tunnelName)),
     ("dnsOption", f.dnsOption.map jsonStr),
     ("sslOption", f.sslOption.map jsonStr)]

/-- The fingerprint stored by the named-mode port-change update
(src/src/index.ts lines 1471-1478); the source object literal has no
isQuickMode key. -/
def namedUpdatedConfigHash (f : FingerprintFields) (actualPort : Nat) : String :=
  jsonObj
    [("hostname", f.hostname.map jsonStr),
     ("port", some (toString actualPort)),
     ("tunnelName", some (jsonStr f.tunnelName)),
     ("dnsOption", f.dnsOption.map jsonStr),
     ("sslOption", f.sslOption.map jsonStr)]

/- ------------------------------------------------------------------ -/
/- Remote control-plane client cf (src/src/index.ts lines 578-641)     -/
/- ------------------------------------------------------------------ -/

/-- One element of the envelope errors array. -/
structure CfErrorEntry where
  code : Nat
  message : String
deriving DecidableEq, Repr

/-- The always-validated response envelope
(CloudflareApiResponseSchema). -/
structure CfEnvelope (r : Type) where
  success : Bool
  errors : Option (List CfErrorEntry)
  messages : Option (List String)
  result : r
deriving DecidableEq

/-- An HTTP response as cf observes it: status information, the error
body text, and the outcome of parsing the body as the envelope (an error
models response.json() or the envelope schema validation throwing). -/
structure HttpResp (r : Type) where
  ok : Bool
  status : Nat
  statusText : String
  bodyText : String
  envelope : Except String (CfEnvelope r)

/-- The catch clause of cf: a caught error whose message already carries
the marker is rethrown unchanged, any other error is wrapped with the
marker (src/src/index.ts lines 630-640). -/
def wrapCaught (msg : String) : String :=
  if includesMarker msg then msg
  else marker ++ " API request failed: " ++ msg

/-- The message built from the envelope errors array on success:false
(src/src/index.ts lines 612-616). -/
def errorsJoined (errors : Option (List CfErrorEntry)) : String :=
  match errors with
  | none => "Unknown API error"
  | some es =>
      let s := String.intercalate ", "
        (es.map (fun e =>
          if e.message == "" then "Error " ++ toString e.code else e.message))
      if s == "" then "Unknown API error" else s

/-- The control-plane call chokepoint cf (src/src/index.ts lines
578-641).  A supplied result schema is a validator on the envelope
result; without one the raw result is returned (Sum.inl), with one only
the validated value is returned (Sum.inr). -/
def cf {r t : Type} (resp : HttpResp r)
    (resultSchema : Option (r → Except String t)) : Except String (r ⊕ t) :=
  if resp.ok = false then
    .error (wrapCaught (marker ++ " API request failed: "
      ++ toString resp.status ++ " " ++ resp.statusText
      ++ ". Response: " ++ resp.bodyText))
  else
    match resp.envelope with
    | .error zmsg => .error (wrapCaught zmsg)
    | .ok env =>
        if env.success = false then
          .error (wrapCaught (marker ++ " Cloudflare API error: "
            ++ errorsJoined env.errors))
        else
          match resultSchema with
          | none => .ok (Sum.inl env.result)
          | some schema =>
              match schema env.result with
              | .ok v => .ok (Sum.inr v)
              | .error zmsg => .error (wrapCaught zmsg)

/- ------------------------------------------------------------------ -/
/- Retry helper retryWithBackoff (src/src/index.ts lines 643-671)      -/
/- ------------------------------------------------------------------ -/

/-- The retry loop, unrolled on the number of remaining retries.
outcomes i is the result of the i-th call of the wrapped function
(attempts are numbered from 1); the returned list records the backoff
delays slept between consecutive attempts, in order. -/
def retryFrom {e a : Type} (outcomes : Nat → Except e a)
    (initialDelayMs : Nat) : Nat → Nat → Except e a × List Nat
  | attempt, fuel =>
    match outcomes (attempt + 1) with
    | .ok v => (.ok v, [])
    | .error err =>
        match fuel with
        | 0 => (.error err, [])
        | fuel1 + 1 =>
            let delay := initialDelayMs * 2 ^ attempt
            let rest := retryFrom outcomes initialDelayMs (attempt + 1) fuel1
            (rest.1, delay :: rest.2)

/-- retryWithBackoff: attempts the operation until success, sleeping
initialDelayMs * 2 ^ (attempt - 1) after the attempt-th failure, and
re-raising the last error once the failure count exceeds maxRetries
(source defaults: maxRetries 5, initialDelayMs 1000). -/
def retryWithBackoff {e a : Type} (outcomes : Nat → Except e a)
    (maxRetries : Nat) (initialDelayMs : Nat) : Except e a × List Nat :=
  retryFrom outcomes initialDelayMs 0 maxRetries

/- ------------------------------------------------------------------ -/
/- Resource reconciler: DNS cleanup, certificate cleanup, DNS ensure,  -/
/- certificate ensure (src/src/index.ts lines 412-576, 1077-1327)      -/
/- ------------------------------------------------------------------ -/

/-- The CNAME content the plugin points records at. -/
def expectedCname (tunnelId : String) : String :=
  tunnelId ++ ".cfargotunnel.com"

/-- Does a tagged DNS record match the record about to be ensured: the
current hostname, or the configured dns option, pointing at the tunnel
CNAME target (the two early-return tests of the mismatch filter,
src/src/index.ts lines 511-528). -/
def recordMatchesExpected (dnsOption : Option String)
    (currentHostname tunnelId : String) (r : DNSRecord) : Bool :=
  (r.name == currentHostname && r.content == expectedCname tunnelId)
    || (match dnsOption with
        | some d => r.name == d && r.content == expectedCname tunnelId
        | none => false)

/-- cleanupMismatchedDnsRecords (src/src/index.ts lines 490-576): list
the records tagged with this tunnel's ownership comment, delete every
mismatched one (each delete failure only skips that record), and return
the remote state after deletion together with the found and deleted
lists.  A listing failure is caught and yields empty lists with the
remote untouched. -/
def cleanupMismatchedDnsRecords (remote : Remote) (fl : Failures)
    (dnsComment : String) (dnsOption : Option String)
    (currentHostname tunnelId : String) :
    Remote × List DNSRecord × List DNSRecord × List Effect :=
  if fl.dnsList then
    (remote, [], [], [Effect.apiCall "GET" "dns_records?comment"])
  else
    let pluginDnsRecords :=
      remote.dnsRecords.filter (fun r => r.comment == some dnsComment)
    let mismatchedRecords :=
      pluginDnsRecords.filter
        (fun r => !recordMatchesExpected dnsOption currentHostname tunnelId r)
    let deletedRecords :=
      mismatchedRecords.filter (fun r => !fl.dnsDelete r.id)
    let remaining :=
      remote.dnsRecords.filter
        (fun r => !(deletedRecords.any (fun d => d.id == r.id)))
    ({ remote with dnsRecords := remaining },
      mismatchedRecords, deletedRecords,
      Effect.apiCall "GET" "dns_records?comment"
        :: mismatchedRecords.map (fun _ => Effect.apiCall "DELETE" "dns_records"))

/-- The synthetic ownership tag host prefix for certificate packs of a
tunnel (generateSslTagHostname produces this prefix followed by the
parent domain; the filter in findMismatchedSslCertificates checks the
prefix only). -/
def certTagPrefixFor (tunnelName : String) : String :=
  "cf-tunnel-plugin-" ++ tunnelName ++ "--"

/-- Does one certificate host cover the current hostname: tag hosts are
skipped, otherwise exact equality or wildcard-suffix containment
(src/src/index.ts lines 462-467). -/
def certHostCovers (currentHostname : String) (host : String) : Bool :=
  if strIsPrefixOf "cf-tunnel-plugin-" host then false
  else host == currentHostname
    || (strIsPrefixOf "*." host
      && strEndsWith currentHostname (String.mk (host.toList.drop 1)))

/-- findMismatchedSslCertificates (src/src/index.ts lines 431-488): the
certificate packs carrying this tunnel's tag host whose host lists do not
cover the current hostname.  A listing failure is caught and yields the
empty list. -/
def findMismatchedSslCertificates (remote : Remote) (fl : Failures)
    (currentTunnelName currentHostname : String) :
    List CertPack × List Effect :=
  if fl.certList then ([], [Effect.apiCall "GET" "ssl/certificate_packs"])
  else
    let currentTunnelCerts :=
      remote.certPacks.filter
        (fun c => c.hosts.any
          (fun h => strIsPrefixOf (certTagPrefixFor currentTunnelName) h))
    let mismatchedCerts :=
      currentTunnelCerts.filter
        (fun c => !(c.hosts.any (certHostCovers currentHostname)))
    (mismatchedCerts, [Effect.apiCall "GET" "ssl/certificate_packs"])

/-- The certificate deletion loop of the auto-cleanup block
(src/src/index.ts lines 1101-1108): each delete is an unguarded cf call,
so the first failing delete aborts the whole start routine. -/
def deleteCertPacks (remote : Remote) (fl : Failures) :
    List CertPack → Except String (Remote × List Effect)
  | [] => .ok (remote, [])
  | c :: cs =>
      if fl.certDelete c.id then apiFail "delete certificate_pack"
      else
        match deleteCertPacks
            { remote with certPacks := remote.certPacks.filter (fun p => p.id != c.id) }
            fl cs with
        | .ok (remote1, effs) =>
            .ok (remote1, Effect.apiCall "DELETE" "ssl/certificate_packs" :: effs)
        | .error msg => .error msg

/-- The auto-cleanup block of the named-mode start (src/src/index.ts
lines 1077-1115): DNS cleanup (never throws), certificate mismatch
listing (never throws), then deletion of each mismatched certificate
pack (throws on the first failing delete). -/
def runAutoCleanup (remote : Remote) (fl : Failures) (dnsComment : String)
    (dnsOption : Option String) (currentHostname tunnelName tunnelId : String) :
    Except String (Remote × List Effect) :=
  let dnsCleanup :=
    cleanupMismatchedDnsRecords remote fl dnsComment dnsOption
      currentHostname tunnelId
  let remote1 := dnsCleanup.1
  let sslFound := findMismatchedSslCertificates remote1 fl tunnelName currentHostname
  match deleteCertPacks remote1 fl sslFound.1 with
  | .ok (remote2, effs) =>
      .ok (remote2, dnsCleanup.2.2.2 ++ sslFound.2 ++ effs)
  | .error msg => .error msg

/-- The CNAME record a DNS-ensure create produces. -/
def mkCnameRecord (newId name tunnelId dnsComment : String) : DNSRecord :=
  { id := newId, type := "CNAME", name := name,
    content := expectedCname tunnelId, proxied := true,
    comment := some dnsComment }

/-- Remote state with one DNS record appended. -/
def addRecord (remote : Remote) (r : DNSRecord) : Remote :=
  { remote with dnsRecords := remote.dnsRecords ++ [r] }

/-- Number of CNAME records with the given name, i.e. the length of the
type=CNAME name=X listing the DNS-ensure paths consult. -/
def countCnameNamed (remote : Remote) (name : String) : Nat :=
  (remote.dnsRecords.filter (fun r => r.type == "CNAME" && r.name == name)).length

/-- The DNS-ensure step of the named-mode start (src/src/index.ts lines
1138-1206).  With an explicit dns option, ensure exactly that CNAME
exists, creating it only when the listing is empty (ensureDnsRecord).
Without one, check for a wildcard CNAME on the parent domain and fall
back to creating an exact-hostname CNAME only when neither listing
returns a record. -/
def ensureDnsStep (remote : Remote) (fl : Failures) (dnsOption : Option String)
    (hostname parentDomain tunnelId dnsComment newId : String) :
    Except String (Remote × List Effect) :=
  match dnsOption with
  | some dnsName =>
      if fl.dnsEnsureList1 then apiFail "list dns_records" else
      let existingWildcard :=
        remote.dnsRecords.filter (fun r => r.type == "CNAME" && r.name == dnsName)
      if existingWildcard.length == 0 then
        if fl.dnsEnsureCreate then apiFail "create dns_record" else
        .ok (addRecord remote (mkCnameRecord newId dnsName tunnelId dnsComment),
          [Effect.apiCall "GET" "dns_records", Effect.apiCall "POST" "dns_records"])
      else .ok (remote, [Effect.apiCall "GET" "dns_records"])
  | none =>
      let wildcardDns := "*." ++ parentDomain
      if fl.dnsEnsureList1 then apiFail "list dns_records" else
      let existingWildcard :=
        remote.dnsRecords.filter (fun r => r.type == "CNAME" && r.name == wildcardDns)
      if existingWildcard.length == 0 then
        if fl.dnsEnsureList2 then apiFail "list dns_records" else
        let existingDnsRecords :=
          remote.dnsRecords.filter (fun r => r.type == "CNAME" && r.name == hostname)
        if existingDnsRecords.length == 0 then
          if fl.dnsEnsureCreate then apiFail "create dns_record" else
          .ok (addRecord remote (mkCnameRecord newId hostname tunnelId dnsComment),
            [Effect.apiCall "GET" "dns_records", Effect.apiCall "GET" "dns_records",
             Effect.apiCall "POST" "dns_records"])
        else
          .ok (remote, [Effect.apiCall "GET" "dns_records",
            Effect.apiCall "GET" "dns_records"])
      else .ok (remote, [Effect.apiCall "GET" "dns_records"])

/-- First certificate pack whose host list contains the host
(certContainingHost, src/src/index.ts lines 1228-1231). -/
def certContainingHost (certPacks : List CertPack) (host : String) :
    Option CertPack :=
  (certPacks.filter (fun c => c.hosts.contains host)).head?

/-- The edge-certificate ensure step (src/src/index.ts lines 1216-1327):
list certificate packs; with an ssl option order a certificate only when
no pack contains that host; otherwise look for a parent-domain wildcard
pack, then consult Total-TLS and an exact-hostname pack before ordering.
Every failure here (including the listing) is rethrown by the
surrounding catch clause. -/
def ensureCertStep (remote : Remote) (fl : Failures) (sslOption : Option String)
    (hostname parentDomain : String) : Except String (List Effect) :=
  if fl.certListEnsure then apiFail "list certificate_packs" else
  match sslOption with
  | some sslHost =>
      match certContainingHost remote.certPacks sslHost with
      | some _ => .ok [Effect.apiCall "GET" "ssl/certificate_packs"]
      | none =>
          if fl.certOrder then apiFail "order certificate_pack"
          else .ok [Effect.apiCall "GET" "ssl/certificate_packs",
            Effect.apiCall "POST" "ssl/certificate_packs/order"]
  | none =>
      let wildcardDomain := "*." ++ parentDomain
      match certContainingHost remote.certPacks wildcardDomain with
      | some _ => .ok [Effect.apiCall "GET" "ssl/certificate_packs"]
      | none =>
          if fl.totalTlsGet then apiFail "get total_tls" else
          match certContainingHost remote.certPacks hostname with
          | some _ => .ok [Effect.apiCall "GET" "ssl/certificate_packs",
              Effect.apiCall "GET" "acm/total_tls"]
          | none =>
              if remote.totalTlsOn then
                .ok [Effect.apiCall "GET" "ssl/certificate_packs",
                  Effect.apiCall "GET" "acm/total_tls"]
              else if fl.certOrder then apiFail "order certificate_pack"
              else .ok [Effect.apiCall "GET" "ssl/certificate_packs",
                Effect.apiCall "GET" "acm/total_tls",
                Effect.apiCall "POST" "ssl/certificate_packs/order"]

/- ------------------------------------------------------------------ -/
/- Lifecycle state store and session orchestrator                      -/
/- (src/src/index.ts lines 263-279, 855-1513, 1565-1573)               -/
/- ------------------------------------------------------------------ -/

/-- The tunnel-daemon child process handle: pid plus the killed flag. -/
structure TunnelChild where
  pid : Nat
  killed : Bool
deriving DecidableEq, Repr

/-- The process-wide lifecycle state (GlobalState in the source).
tunnelUrl holds the resolved value of the stored tunnel-URL promise
(none when unset); per claim C10 that promise never rejects. -/
structure GState where
  child : Option TunnelChild := none
  configHash : Option String := none
  shuttingDown : Bool := false
  exitHandlersRegistered : Bool := false
  tunnelUrl : Option String := none
deriving DecidableEq, Repr

/-- The execution environment of one start invocation: the dev-server
address, the CLOUDFLARE_API_KEY environment variable, the remote
control-plane state with its failure injection, the quick-tunnel spawn
outcome (pid and either the observed trycloudflare URL or the
timeout/exit/spawn error), and fresh identifiers for created
resources. -/
structure Env where
  serverHost : String
  detectedPort : Option Nat
  configPort : Option Nat
  envApiToken : Option String
  remote : Remote
  fl : Failures
  spawnQuick : String → Nat × Except String String
  spawnNamedPid : Nat
  newTunnelId : String
  newDnsRecordId : String
  tunnelToken : String

/-- The local target the daemon forwards to (getLocalTarget,
src/src/index.ts lines 1616-1619). -/
def getLocalTarget (host : String) (port : Nat) : String :=
  if host.toList.contains ':' then "http://[" ++ host ++ "]:" ++ toString port
  else "http://" ++ host ++ ":" ++ toString port

/-- The port a start invocation uses: the user-provided port, else the
detected server port, else the bundler-config port, else 5173
(src/src/index.ts lines 864-865). -/
def computePort (cfg : ResolvedConfig) (env : Env) : Nat :=
  ((cfg.userProvidedPort.or env.detectedPort).or env.configPort).getD 5173

/-- The fingerprint fields of the current invocation. -/
def fingerprintOf (cfg : ResolvedConfig) (port : Nat) : FingerprintFields :=
  { isQuickMode := cfg.isQuickMode
    hostname := cfg.hostname
    port := port
    tunnelName := cfg.tunnelName
    dnsOption := cfg.dnsOption
    sslOption := cfg.sslOption }

/-- The named-tunnel reconciliation and spawn sequence (src/src/index.ts
lines 988-1350), run when the invocation is not a reuse: resolve the API
token, account, zone and tunnel, run auto-cleanup if enabled, push the
ingress configuration, ensure DNS, read the tunnel token, ensure the
edge certificate, and spawn the daemon.  Any error aborts the whole
sequence. -/
def namedFlowCore (cfg : ResolvedConfig) (env : Env) (port : Nat) :
    Except String (Nat × List Effect) := do
  let hostname := cfg.hostname.getD ""
  let apiToken ← match cfg.apiToken.or env.envApiToken with
    | some t => Except.ok t
    | none => Except.error (marker ++ " API token is required.")
  let _ := apiToken
  let accounts ← if env.fl.accountsList then apiFail "list accounts"
    else Except.ok env.remote.accounts
  let accountId ← match cfg.accountId.or (accounts.head?.map Account.id) with
    | some a => Except.ok a
    | none => Except.error "Unable to determine Cloudflare account ID"
  let apexDomain :=
    String.intercalate "." (((splitOnDot hostname).reverse.take 2).reverse)
  let parentDomain := String.intercalate "." ((splitOnDot hostname).drop 1)
  let zoneResolved ← match cfg.zoneId with
    | some z => Except.ok (z, ([] : List Effect))
    | none =>
        let zonesParent :=
          if env.fl.zonesParentList then []
          else env.remote.zones.filter (fun z => z.name == parentDomain)
        let zones ←
          if zonesParent.isEmpty then
            if env.fl.zonesApexList then apiFail "list zones"
            else Except.ok (env.remote.zones.filter (fun z => z.name == apexDomain))
          else Except.ok zonesParent
        match zones.head?.map Zone.id with
        | some z => Except.ok (z, [Effect.apiCall "GET" "zones"])
        | none =>
            Except.error ("Zone " ++ apexDomain ++ " not found in account " ++ accountId)
  let zoneId := zoneResolved.1
  let _ := zoneId
  let tunnels ← if env.fl.tunnelsList then apiFail "list tunnels"
    else Except.ok (env.remote.tunnels.filter (fun t => t.name == cfg.tunnelName))
  let tunnelFound ← match tunnels.head? with
    | some t => Except.ok (t.id, env.remote, ([] : List Effect))
    | none =>
        if env.fl.tunnelCreate then apiFail "create tunnel"
        else Except.ok (env.newTunnelId,
          { env.remote with tunnels := env.remote.tunnels
              ++ [{ id := env.newTunnelId, name := cfg.tunnelName }] },
          [Effect.apiCall "POST" "cfd_tunnel"])
  let tunnelId := tunnelFound.1
  let remoteA := tunnelFound.2.1
  let dnsComment := "unplugin-cloudflare-tunnel:" ++ cfg.tunnelName
  let cleaned ← if cfg.autoCleanup then
      runAutoCleanup remoteA env.fl dnsComment cfg.dnsOption hostname
        cfg.tunnelName tunnelId
    else Except.ok (remoteA, [])
  let remoteB := cleaned.1
  let localTarget := getLocalTarget env.serverHost port
  let _ := localTarget
  let _ ← if env.fl.ingressPut then apiFail "put configurations"
    else Except.ok ()
  let ensured ← ensureDnsStep remoteB env.fl cfg.dnsOption hostname
    parentDomain tunnelId dnsComment env.newDnsRecordId
  let remoteC := ensured.1
  let token ← if env.fl.tokenGet then apiFail "get tunnel token"
    else Except.ok env.tunnelToken
  let certEffs ← ensureCertStep remoteC env.fl cfg.sslOption hostname parentDomain
  let args := ["tunnel", "--loglevel", cfg.effectiveLogLevel]
    ++ (match cfg.logFile with | some f => ["--logfile", f] | none => [])
    ++ ["run", "--token", token]
  Except.ok (env.spawnNamedPid,
    [Effect.ensureBinary, Effect.apiCall "GET" "accounts"]
      ++ zoneResolved.2
      ++ [Effect.apiCall "GET" "cfd_tunnel"] ++ tunnelFound.2.2
      ++ cleaned.2
      ++ [Effect.apiCall "PUT" "configurations"]
      ++ ensured.2
      ++ [Effect.apiCall "GET" "token"]
      ++ certEffs
      ++ [Effect.spawnProcess args])

/-- The cloudflared argument list of the quick-tunnel spawn
(src/src/index.ts lines 676-681). -/
def quickTunnelArgs (logFile : Option String) (localTarget : String) :
    List String :=
  ["tunnel", "--loglevel", "info"]
    ++ (match logFile with | some f => ["--logfile", f] | none => [])
    ++ ["--url", localTarget]

/-- The non-reuse path of configureServer (src/src/index.ts lines
889-1485): terminate any previous live child, clear the stored child and
fingerprint, clear the shutting-down flag, then run the quick or named
flow; on success store the new child and fingerprint and register exit
handlers.  The returned Except is the outcome of the returned promise
(the outer catch logs and re-raises). -/
def startFresh (cfg : ResolvedConfig) (env : Env) (st : GState)
    (port : Nat) (newHash : String) :
    GState × Except String String × List Effect :=
  let killEffs :=
    match st.child with
    | some c => if !c.killed then [Effect.killChild "SIGTERM"] else []
    | none => []
  let st1 : GState :=
    { st with child := none, configHash := none, shuttingDown := false }
  if cfg.isQuickMode then
    let localTarget := getLocalTarget env.serverHost port
    let args := quickTunnelArgs cfg.logFile localTarget
    match env.spawnQuick localTarget with
    | (pid, .ok url) =>
        let st2 : GState :=
          { st1 with child := some ⟨pid, false⟩, configHash := some newHash,
                     exitHandlersRegistered := true }
        (st2, .ok url,
          killEffs ++ [Effect.ensureBinary, Effect.spawnProcess args])
    | (_, .error msg) =>
        (st1, .error msg,
          killEffs ++ [Effect.ensureBinary, Effect.spawnProcess args])
  else
    match namedFlowCore cfg env port with
    | .ok (pid, effs) =>
        let st2 : GState :=
          { st1 with child := some ⟨pid, false⟩, configHash := some newHash,
                     exitHandlersRegistered := true }
        (st2, .ok ("https://" ++ cfg.hostname.getD ""),
          killEffs ++ effs)
    | .error msg => (st1, .error msg, killEffs)

/-- The start routine configureServer, split at its reuse test: a live
child whose stored fingerprint equals the freshly computed one short
circuits with the stored URL and no effect; everything else takes the
full fresh-start path above. -/
def configureServerModel (cfg : ResolvedConfig) (env : Env) (st : GState) :
    GState × Except String String × List Effect :=
  let port := computePort cfg env
  let newHash := newConfigHash (fingerprintOf cfg port)
  let aliveSame :=
    match st.child with
    | some c => !c.killed && (st.configHash == some newHash)
    | none => false
  if aliveSame then
    ({ st with shuttingDown := false, exitHandlersRegistered := true },
      .ok (st.tunnelUrl.getD ""), [])
  else
    startFresh cfg env st port newHash

/-- The vite configureServer hook wrapper (src/src/index.ts lines
1565-1573): run the start routine and store, as the tunnel-URL promise,
its resolved URL on success and the empty string on failure — the stored
promise never rejects. -/
def viteConfigureServer (cfg : ResolvedConfig) (env : Env) (st : GState) :
    GState × Except String String × List Effect :=
  let run := configureServerModel cfg env st
  ({ run.1 with tunnelUrl := some (match run.2.1 with
      | .ok u => u
      | .error _ => "") },
    run.2.1, run.2.2)

/-- The combinator applied to the start outcome when storing the
tunnel-URL promise (configuredPromise.then of the resolved URL with a
catch resolving the empty string, src/src/index.ts lines 1566-1569). -/
def storeStartOutcome (res : Except String String) : Except String String :=
  match res with
  | .ok u => .ok u
  | .error _ => .ok ""

/-- The virtual-module source text for a given tunnel URL. -/
def moduleText (url : String) : String :=
  "export function getTunnelUrl() \x7b return " ++ jsonStr url ++ "; \x7d"

/-- The load hook for the virtual module (src/src/index.ts lines
1530-1536): await the stored promise (a rejected promise would re-raise
here; an unset one yields the empty string) and template the URL. -/
def loadVirtualModule (stored : Option (Except String String)) :
    Except String String :=
  match stored with
  | none => .ok (moduleText "")
  | some r =>
      match r with
      | .ok url => .ok (moduleText url)
      | .error msg => .error msg

/- ------------------------------------------------------------------ -/
/- Concrete fixtures used by witnesses and counterexamples             -/
/- ------------------------------------------------------------------ -/

/-- A remote state with no resources. -/
def remoteEmpty : Remote := ⟨[], [], [], [], [], false⟩

/-- A resolved quick-mode configuration with all defaults. -/
def cfgQuickW : ResolvedConfig :=
  { isQuickMode := true, hostname := none, apiToken := none, accountId := none,
    zoneId := none, tunnelName := "quick-tunnel", dnsOption := none,
    sslOption := none, autoCleanup := true, userProvidedPort := none,
    logFile := none, effectiveLogLevel := "warn", debug := false }

/-- An environment whose quick-tunnel spawn succeeds with a fixed URL. -/
def envQuickW : Env :=
  { serverHost := "localhost", detectedPort := some 5173, configPort := none,
    envApiToken := none, remote := remoteEmpty, fl := {},
    spawnQuick := fun _ => (7, .ok "https://abc-123.trycloudflare.com"),
    spawnNamedPid := 8, newTunnelId := "tun-new", newDnsRecordId := "rec-new",
    tunnelToken := "token123" }

/-- Fingerprint fields of a representative persistent-mode configuration. -/
def fpNamed0 : FingerprintFields :=
  ⟨false, some "dev.example.com", 5173, "dev-tunnel", none, none⟩

/-- A tagged DNS record matching the expected (hostname, content) pair. -/
def recMatch : DNSRecord :=
  ⟨"r1", "CNAME", "dev.example.com", "tun1.cfargotunnel.com", true,
    some "unplugin-cloudflare-tunnel:dev-tunnel"⟩

/-- A tagged DNS record with a stale name. -/
def recStale1 : DNSRecord :=
  ⟨"r2", "CNAME", "old.example.com", "tun1.cfargotunnel.com", true,
    some "unplugin-cloudflare-tunnel:dev-tunnel"⟩

/-- A tagged DNS record pointing at another tunnel. -/
def recStale2 : DNSRecord :=
  ⟨"r3", "CNAME", "dev.example.com", "other.cfargotunnel.com", true,
    some "unplugin-cloudflare-tunnel:dev-tunnel"⟩

/-- An untagged record the cleanup must never touch. -/
def recForeign : DNSRecord :=
  ⟨"r4", "A", "mail.example.com", "192.0.2.1", false, none⟩

/-- A remote state with one matching, two stale and one foreign record. -/
def remoteDnsW : Remote :=
  ⟨[], [], [], [recMatch, recStale1, recStale2, recForeign], [], false⟩

/-- A certificate pack owned by tunnel dev-tunnel that no longer covers
the current hostname. -/
def certStale : CertPack :=
  ⟨"cert1", ["cf-tunnel-plugin-dev-tunnel--example.com", "old.example.com"]⟩

/-- Remote state for the cleanup-abort counterexample: one account, the
example.com zone, the dev-tunnel tunnel, and one stale certificate. -/
def remoteC5 : Remote :=
  ⟨[⟨"acc1", "Main"⟩], [⟨"zone1", "example.com"⟩], [⟨"tun1", "dev-tunnel"⟩],
    [], [certStale], false⟩

/-- Failure injection where only the certificate-pack delete fails. -/
def flC5 : Failures := { certDelete := fun cid => cid == "cert1" }

/-- Failure injection where DNS listing, every DNS delete and the
certificate listing all fail, but certificate deletes succeed. -/
def flNoisy : Failures :=
  { dnsList := true, dnsDelete := fun _ => true, certList := true }

/-- A resolved named-mode configuration for dev.example.com. -/
def cfgNamedW : ResolvedConfig :=
  { isQuickMode := false, hostname := some "dev.example.com",
    apiToken := some "tok", accountId := none, zoneId := none,
    tunnelName := "dev-tunnel", dnsOption := none, sslOption := none,
    autoCleanup := true, userProvidedPort := none, logFile := none,
    effectiveLogLevel := "warn", debug := false }

/-- Environment for the cleanup-abort counterexample. -/
def envC5 : Env :=
  { serverHost := "localhost", detectedPort := some 5173, configPort := none,
    envApiToken := none, remote := remoteC5, fl := flC5,
    spawnQuick := fun _ => (0, .error "unused"), spawnNamedPid := 9,
    newTunnelId := "tun-new", newDnsRecordId := "rec-new",
    tunnelToken := "tok123" }

/-- A 2xx response whose body fails envelope schema validation. -/
def respBadEnvelope : HttpResp Unit :=
  { ok := true, status := 200, statusText := "OK", bodyText := "",
    envelope := .error "Expected object, received string" }

/-- A 2xx response with a successful envelope carrying result 42. -/
def respGoodW : HttpResp Nat :=
  { ok := true, status := 200, statusText := "OK", bodyText := "",
    envelope := .ok ⟨true, none, none, 42⟩ }

/-- A result schema that validates by incrementing. -/
def schemaOkW : Nat → Except String Nat := fun n => .ok (n + 1)

/-- Raw options supplying an explicit empty tunnelName in named mode. -/
def optsEmptyName : RawOptions :=
  { hostname := some "dev.example.com", tunnelName := some "" }

/-- Raw quick-mode options (no hostname) carrying an apiToken. -/
def optsQuickToken : RawOptions := { apiToken := some "tok" }

/-- The resolved configuration produced for named-mode options that set
only hostname and tunnelName (used to witness successful validation). -/
def namedOkConfig (h tn : String) : ResolvedConfig :=
  { isQuickMode := false, hostname := some h, apiToken := none,
    accountId := none, zoneId := none, tunnelName := tn, dnsOption := none,
    sslOption := none, autoCleanup := true, userProvidedPort := none,
    logFile := none, effectiveLogLevel := "warn", debug := false }

/- ------------------------------------------------------------------ -/
/- Theorems                                                            -/
/- ------------------------------------------------------------------ -/

/-- Claim C3: the configuration fingerprint should be a deterministic
digest of exactly (mode, hostname, port, tunnelName, dns, ssl), with the
initial computation, the quick-mode update and the named-mode update
agreeing on equal field values.  The first conjunct shows the quick-mode
update site agrees with the initial computation; the second shows the
named-mode port-change update site (src/src/index.ts lines 1471-1478)
omits the isQuickMode key and therefore differs from the initial
computation even on identical six-field values — the code bug behind
this claim. -/
theorem fingerprint_update_sites :
    (∀ (f : FingerprintFields) (p : Nat),
      quickUpdatedConfigHash f p = newConfigHash { f with port := p }) ∧
    (namedUpdatedConfigHash fpNamed0 5173 == newConfigHash fpNamed0) = false := by
  constructor
  · intro f p
    rfl
  · decide

/-- Claim C10: the stored tunnel-URL promise never rejects — a failed
start resolves it to the empty string and a successful one to the
resolved URL — and the virtual-module load hook therefore always yields
the module text for a string (the stored URL, or the empty string on
failure or before readiness), never an exception. -/
theorem stored_tunnel_url_never_rejects :
    (∀ e, storeStartOutcome (.error e) = .ok "") ∧
    (∀ u, storeStartOutcome (.ok u) = .ok u) ∧
    (∀ res : Except String String, ∃ u, storeStartOutcome res = .ok u ∧
      loadVirtualModule (some (storeStartOutcome res)) = .ok (moduleText u)) ∧
    loadVirtualModule none = .ok (moduleText "") ∧
    (∀ cfg env st, ∃ u, (viteConfigureServer cfg env st).1.tunnelUrl = some u) := by
  refine ⟨fun e => rfl, fun u => rfl, ?_, rfl, ?_⟩
  · intro res
    cases res with
    | ok u => exact ⟨u, rfl, rfl⟩
    | error e => exact ⟨"", rfl, rfl⟩
  · intro cfg env st
    exact ⟨_, rfl⟩

/-- Unrolling of the retry loop when every attempt fails: starting after
attempt failures with fuel retries left, the loop sleeps the geometric
delays for exponents attempt, attempt+1, ... and ends with the error of
the last attempt, unmodified. -/
theorem retryFrom_all_fail {e a : Type} (errAt : Nat → e) (base : Nat) :
    ∀ (fuel attempt : Nat),
      retryFrom (fun i => (Except.error (errAt i) : Except e a)) base attempt fuel =
        (.error (errAt (attempt + fuel + 1)),
          (List.range fuel).map (fun k => base * 2 ^ (attempt + k))) := by
  intro fuel
  induction fuel with
  | zero =>
      intro attempt
      simp [retryFrom]
  | succ f ih =>
      intro attempt
      have step :
          retryFrom (fun i => (Except.error (errAt i) : Except e a)) base attempt (f + 1) =
            ((retryFrom (fun i => (Except.error (errAt i) : Except e a)) base (attempt + 1) f).1,
              base * 2 ^ attempt ::
                (retryFrom (fun i => (Except.error (errAt i) : Except e a)) base (attempt + 1) f).2) := rfl
      rw [step, ih (attempt + 1)]
      have h1 : attempt + 1 + f + 1 = attempt + (f + 1) + 1 := by omega
      have h2 : ∀ k, attempt + 1 + k = attempt + (k + 1) := by omega
      rw [h1, List.range_succ_eq_map]
      simp [List.map_map, Function.comp, h2]

/-- Unrolling of the retry loop when attempts 1..n fail and attempt n+1
succeeds, with enough fuel left: the loop sleeps exactly the first
n - attempt geometric delays and returns the success value. -/
theorem retryFrom_ok_after {e a : Type} (errAt : Nat → e) (v : a) (n base : Nat) :
    ∀ (fuel attempt : Nat), attempt ≤ n → n ≤ attempt + fuel →
      retryFrom (fun i => if i ≤ n then .error (errAt i) else (Except.ok v : Except e a))
          base attempt fuel =
        (.ok v, (List.range (n - attempt)).map (fun k => base * 2 ^ (attempt + k))) := by
  intro fuel
  induction fuel with
  | zero =>
      intro attempt hle hub
      have heq : attempt = n := by omega
      subst heq
      conv_lhs => rw [retryFrom]
      rw [if_neg (by omega : ¬ (attempt + 1 ≤ attempt))]
      simp
  | succ f ih =>
      intro attempt hle hub
      by_cases hcase : attempt + 1 ≤ n
      · conv_lhs => rw [retryFrom]
        rw [if_pos hcase]
        dsimp only
        rw [ih (attempt + 1) hcase (by omega)]
        have h1 : n - attempt = (n - (attempt + 1)) + 1 := by omega
        have h2 : ∀ k, attempt + 1 + k = attempt + (k + 1) := by omega
        rw [h1, List.range_succ_eq_map]
        simp [List.map_map, Function.comp, h2]
      · have heq : attempt = n := by omega
        subst heq
        conv_lhs => rw [retryFrom]
        rw [if_neg (by omega : ¬ (attempt + 1 ≤ attempt))]
        simp

/-- Claim C7: retryWithBackoff sleeps base * 2 ^ (attempt - 1) between
consecutive attempts (for attempt = 1, 2, ... these are base, 2*base,
4*base, ...), and once the failure count exceeds maxRetries it re-raises
the error of the last failed attempt unmodified; when attempt n+1
succeeds after n failures it returns the success value after exactly the
first n delays. -/
theorem retry_backoff_schedule {e a : Type} (errAt : Nat → e)
    (maxRetries base : Nat) :
    (retryWithBackoff (fun i => (Except.error (errAt i) : Except e a)) maxRetries base =
      (.error (errAt (maxRetries + 1)),
        (List.range maxRetries).map (fun k => base * 2 ^ k))) ∧
    (∀ (n : Nat) (v : a), n ≤ maxRetries →
      retryWithBackoff (fun i => if i ≤ n then .error (errAt i) else .ok v)
          maxRetries base =
        (.ok v, (List.range n).map (fun k => base * 2 ^ k))) := by
  constructor
  · have h := @retryFrom_all_fail e a errAt base maxRetries 0
    simpa [retryWithBackoff] using h
  · intro n v hn
    have h := @retryFrom_ok_after e a errAt v n base maxRetries 0 (by omega) (by omega)
    simpa [retryWithBackoff] using h

/-- Witness for claim C7 at the spec's concrete numbers: two failing
attempts at base delay 1000 sleep 1000 then 2000, and exceeding
maxRetries 2 re-raises the third attempt's error unchanged; two failures
then success sleeps the same two delays and returns the value. -/
theorem retry_backoff_schedule_witness :
    retryWithBackoff (fun i => (Except.error ("boom " ++ toString i) : Except String Nat))
        2 1000 =
      (.error "boom 3", [1000, 2000]) ∧
    retryWithBackoff
        (fun i => if i ≤ 2 then .error ("boom " ++ toString i) else (Except.ok 7 : Except String Nat))
        5 1000 =
      (.ok 7, [1000, 2000]) := by
  constructor
  · have h := (@retry_backoff_schedule String Nat (fun i => "boom " ++ toString i) 2 1000).1
    rw [h]
    rfl
  · have h := (@retry_backoff_schedule String Nat (fun i => "boom " ++ toString i) 5 1000).2
      2 (7 : Nat) (by omega)
    rw [h]
    rfl

/-- Claim C8: in quick (ephemeral) mode — no hostname key — the presence
of any persistent-only option (apiToken, accountId, zoneId, tunnelName,
dns, ssl, cleanup) makes option validation fail synchronously with the
quick-mode configuration error; validateOptions is the pure factory-time
check that runs before any process is spawned or network call is made. -/
theorem quick_mode_rejects_persistent_options (o : RawOptions)
    (hq : o.hostname = none)
    (hp : o.apiToken.isSome = true ∨ o.accountId.isSome = true ∨
      o.zoneId.isSome = true ∨ o.tunnelName.isSome = true ∨
      o.dns.isSome = true ∨ o.ssl.isSome = true ∨ o.cleanupPresent = true) :
    validateOptions o =
      .error (.quickModeInvalidOptions (persistentOnlyPresent o)) := by
  have hne : (persistentOnlyPresent o).isEmpty = false := by
    rcases hp with h | h | h | h | h | h | h <;>
      simp [persistentOnlyPresent, h, List.isEmpty_eq_false, List.append_eq_nil]
  simp only [validateOptions, hq]
  simp [hne]

/-- Witness for claim C8: quick-mode options carrying an apiToken are
rejected with the quick-mode configuration error naming that option. -/
theorem quick_mode_rejects_witness :
    validateOptions optsQuickToken =
      .error (.quickModeInvalidOptions ["apiToken"]) := by
  have h := quick_mode_rejects_persistent_options optsQuickToken rfl (Or.inl rfl)
  rw [h]
  rfl

/-- Claim C9 counterexample: a supplied empty tunnelName is not rejected
— the JS falsy default replaces it with dev-tunnel and validation
succeeds — although the empty string does not match the acceptance
regex, refuting "accepted iff it matches" and "the empty string is
rejected with a ConfigurationError". -/
theorem empty_tunnel_name_not_rejected :
    exceptIsOk (validateOptions optsEmptyName) = true ∧
    tunnelNameOk "" = false ∧
    (validateOptions optsEmptyName).toOption.map ResolvedConfig.tunnelName =
      some "dev-tunnel" := by
  refine ⟨?_, rfl, ?_⟩ <;> rfl

/-- Claim C9 (amended): for named-mode options with a valid hostname, a
supplied non-empty tunnelName is accepted iff it matches the regex (in
particular names with a leading or trailing hyphen are rejected with the
tunnelName configuration error), while a supplied empty string is
replaced by the default dev-tunnel and accepted. -/
theorem tunnel_name_validation (h t : String) (hh : h ≠ "") :
    (t = "" →
      ∃ cfg, validateOptions { hostname := some h, tunnelName := some t } = .ok cfg ∧
        cfg.tunnelName = "dev-tunnel") ∧
    (t ≠ "" →
      ((∃ cfg, validateOptions { hostname := some h, tunnelName := some t } = .ok cfg ∧
          cfg.tunnelName = t) ↔ tunnelNameOk t = true) ∧
      (tunnelNameOk t = false →
        validateOptions { hostname := some h, tunnelName := some t } =
          .error ConfigError.invalidTunnelName)) ∧
    (tunnelNameOk "-a" = false ∧ tunnelNameOk "a-" = false ∧
      tunnelNameOk "a-b" = true) := by
  have hb : (h == "") = false := by
    simp [hh]
  refine ⟨?_, ?_, by decide⟩
  · intro ht
    subst ht
    refine ⟨namedOkConfig h "dev-tunnel", ?_, rfl⟩
    simp [validateOptions, persistentOnlyPresent, resolveTunnelName, namedOkConfig, hb]
    decide
  · intro ht
    have htb : (t == "") = false := by
      simp [ht]
    by_cases hok : tunnelNameOk t = true
    · constructor
      · refine iff_of_true ⟨namedOkConfig h t, ?_, rfl⟩ hok
        simp [validateOptions, persistentOnlyPresent, resolveTunnelName, namedOkConfig, hb, htb, hok]
      · intro hbad
        rw [hok] at hbad
        exact absurd hbad (by decide)
    · have hokf : tunnelNameOk t = false := by
        simpa using hok
      have herr : validateOptions { hostname := some h, tunnelName := some t } =
          .error ConfigError.invalidTunnelName := by
        simp [validateOptions, persistentOnlyPresent, resolveTunnelName, hb, htb, hokf, ht]
      constructor
      · refine iff_of_false ?_ (by simp [hokf])
        rintro ⟨cfg, hcfg, -⟩
        rw [herr] at hcfg
        exact Except.noConfusion hcfg
      · intro _
        exact herr

/-- Witness for claim C9 (amended): names with a leading or trailing
hyphen are rejected with the tunnelName configuration error. -/
theorem tunnel_name_validation_witness :
    validateOptions { hostname := some "dev.example.com", tunnelName := some "-bad" } =
      .error ConfigError.invalidTunnelName ∧
    validateOptions { hostname := some "dev.example.com", tunnelName := some "bad-" } =
      .error ConfigError.invalidTunnelName := by
  constructor
  · exact ((tunnel_name_validation "dev.example.com" "-bad" (by decide)).2.1
      (by decide)).2 (by decide)
  · exact ((tunnel_name_validation "dev.example.com" "bad-" (by decide)).2.1
      (by decide)).2 (by decide)

/-- For a record list with distinct ids, a record of the list has its id
among a filtered sublist's ids iff it satisfies the filter predicate. -/
theorem filter_any_id (l : List DNSRecord) (p : DNSRecord → Bool)
    (hids : (l.map DNSRecord.id).Nodup) :
    ∀ r ∈ l, ((l.filter p).any (fun d => d.id == r.id)) = p r := by
  intro r hr
  by_cases hp : p r = true
  · rw [hp]
    exact List.any_eq_true.mpr ⟨r, List.mem_filter.mpr ⟨hr, hp⟩, by simp⟩
  · have hpf : p r = false := by simpa using hp
    rw [hpf]
    refine List.any_eq_false.mpr ?_
    intro d hd hdr
    have hdl := List.mem_filter.mp hd
    have hdeq : d = r :=
      List.inj_on_of_nodup_map hids hdl.1 hr (by simpa using hdr)
    subst hdeq
    exact absurd hdl.2 (by simp [hpf])

/-- Claim C2: over the N records listed with this tunnel's ownership
comment, cleanup deletes exactly the M whose (name, content) pair does
not match the record about to be ensured, and the post-cleanup remote
keeps exactly the other records — the matching tagged ones and every
untagged one — untouched.  Hypotheses: the listing succeeds, every
individual delete succeeds, and record ids are distinct. -/
theorem dns_cleanup_exact (remote : Remote) (fl : Failures) (dnsComment : String)
    (dnsOption : Option String) (host tid : String)
    (hlist : fl.dnsList = false)
    (hdel : ∀ rid, fl.dnsDelete rid = false)
    (hids : (remote.dnsRecords.map DNSRecord.id).Nodup) :
    (cleanupMismatchedDnsRecords remote fl dnsComment dnsOption host tid).2.2.1 =
      (remote.dnsRecords.filter (fun r => r.comment == some dnsComment)).filter
        (fun r => !recordMatchesExpected dnsOption host tid r) ∧
    (cleanupMismatchedDnsRecords remote fl dnsComment dnsOption host tid).1.dnsRecords =
      remote.dnsRecords.filter
        (fun r => !((r.comment == some dnsComment) &&
          !recordMatchesExpected dnsOption host tid r)) := by
  have hdelete : ∀ (l : List DNSRecord),
      l.filter (fun r => !fl.dnsDelete r.id) = l := by
    intro l
    refine List.filter_eq_self.mpr ?_
    intro r _
    simp [hdel]
  simp only [cleanupMismatchedDnsRecords, hlist, Bool.false_eq_true, if_false]
  simp only [hdelete]
  refine ⟨trivial, ?_⟩
  rw [List.filter_filter]
  refine List.filter_congr ?_
  intro r hr
  rw [filter_any_id remote.dnsRecords _ hids r hr]
  simp [Bool.and_comm]

/-- Witness for claim C2 at a remote state with one matching, two stale
and one untagged record: exactly the two stale records are deleted and
the matching and untagged records survive. -/
theorem dns_cleanup_exact_witness :
    (cleanupMismatchedDnsRecords remoteDnsW {} "unplugin-cloudflare-tunnel:dev-tunnel"
        none "dev.example.com" "tun1").2.2.1 = [recStale1, recStale2] ∧
    (cleanupMismatchedDnsRecords remoteDnsW {} "unplugin-cloudflare-tunnel:dev-tunnel"
        none "dev.example.com" "tun1").1.dnsRecords = [recMatch, recForeign] := by
  have h := dns_cleanup_exact remoteDnsW {} "unplugin-cloudflare-tunnel:dev-tunnel"
    none "dev.example.com" "tun1" rfl (fun _ => rfl) (by decide)
  refine ⟨h.1.trans ?_, h.2.trans ?_⟩ <;> decide

/-- Claim C4: the DNS-ensure step is idempotent.  With an explicit dns
option and no pre-existing CNAME of that name, the first run creates
exactly one record and a second run against the resulting state performs
no create and leaves the state unchanged; likewise for the fallback
branch creating the exact-hostname record when neither the wildcard nor
the hostname listing returns a record. -/
theorem dns_ensure_idempotent (remote : Remote) (fl : Failures)
    (hostname parentDomain tunnelId dnsComment id1 id2 : String)
    (hl1 : fl.dnsEnsureList1 = false) (hl2 : fl.dnsEnsureList2 = false)
    (hcr : fl.dnsEnsureCreate = false) :
    (∀ dnsName, countCnameNamed remote dnsName = 0 →
      ∃ r1 e1 e2,
        ensureDnsStep remote fl (some dnsName) hostname parentDomain tunnelId
            dnsComment id1 = .ok (r1, e1) ∧
        countCnameNamed r1 dnsName = 1 ∧
        ensureDnsStep r1 fl (some dnsName) hostname parentDomain tunnelId
            dnsComment id2 = .ok (r1, e2) ∧
        Effect.apiCall "POST" "dns_records" ∉ e2) ∧
    (countCnameNamed remote ("*." ++ parentDomain) = 0 →
      countCnameNamed remote hostname = 0 →
      ∃ r1 e1 e2,
        ensureDnsStep remote fl none hostname parentDomain tunnelId
            dnsComment id1 = .ok (r1, e1) ∧
        countCnameNamed r1 hostname = 1 ∧
        ensureDnsStep r1 fl none hostname parentDomain tunnelId
            dnsComment id2 = .ok (r1, e2) ∧
        Effect.apiCall "POST" "dns_records" ∉ e2) := by
  have hfilterlen : ∀ (name : String), countCnameNamed remote name = 0 →
      remote.dnsRecords.filter (fun r => r.type == "CNAME" && r.name == name) = [] := by
    intro name h
    exact List.length_eq_zero.mp h
  constructor
  · intro dnsName h0
    have hempty := hfilterlen dnsName h0
    have h1 : ensureDnsStep remote fl (some dnsName) hostname parentDomain tunnelId
        dnsComment id1 =
          .ok (addRecord remote (mkCnameRecord id1 dnsName tunnelId dnsComment),
            [Effect.apiCall "GET" "dns_records", Effect.apiCall "POST" "dns_records"]) := by
      simp [ensureDnsStep, hl1, hcr, hempty]
    have hcount : countCnameNamed
        (addRecord remote (mkCnameRecord id1 dnsName tunnelId dnsComment)) dnsName = 1 := by
      simp [countCnameNamed, addRecord, mkCnameRecord, List.filter_append, hempty]
    have h2 : ensureDnsStep
        (addRecord remote (mkCnameRecord id1 dnsName tunnelId dnsComment)) fl
        (some dnsName) hostname parentDomain tunnelId dnsComment id2 =
          .ok (addRecord remote (mkCnameRecord id1 dnsName tunnelId dnsComment),
            [Effect.apiCall "GET" "dns_records"]) := by
      simp [ensureDnsStep, hl1, addRecord, mkCnameRecord, List.filter_append, hempty]
    exact ⟨_, _, _, h1, hcount, h2, by decide⟩
  · intro h0w h0h
    have hwempty := hfilterlen ("*." ++ parentDomain) h0w
    have hhempty := hfilterlen hostname h0h
    have h1 : ensureDnsStep remote fl none hostname parentDomain tunnelId
        dnsComment id1 =
          .ok (addRecord remote (mkCnameRecord id1 hostname tunnelId dnsComment),
            [Effect.apiCall "GET" "dns_records", Effect.apiCall "GET" "dns_records",
              Effect.apiCall "POST" "dns_records"]) := by
      simp [ensureDnsStep, hl1, hl2, hcr, hwempty, hhempty]
    have hcount : countCnameNamed
        (addRecord remote (mkCnameRecord id1 hostname tunnelId dnsComment)) hostname = 1 := by
      simp [countCnameNamed, addRecord, mkCnameRecord, List.filter_append, hhempty]
    by_cases hweq : hostname = "*." ++ parentDomain
    · have h2 : ensureDnsStep
          (addRecord remote (mkCnameRecord id1 hostname tunnelId dnsComment)) fl
          none hostname parentDomain tunnelId dnsComment id2 =
            .ok (addRecord remote (mkCnameRecord id1 hostname tunnelId dnsComment),
              [Effect.apiCall "GET" "dns_records"]) := by
        simp [ensureDnsStep, hl1, addRecord, mkCnameRecord, List.filter_append,
          hwempty, hweq]
      exact ⟨_, _, _, h1, hcount, h2, by decide⟩
    · have hwne : (hostname == "*." ++ parentDomain) = false := by
        simp [hweq]
      have h2 : ensureDnsStep
          (addRecord remote (mkCnameRecord id1 hostname tunnelId dnsComment)) fl
          none hostname parentDomain tunnelId dnsComment id2 =
            .ok (addRecord remote (mkCnameRecord id1 hostname tunnelId dnsComment),
              [Effect.apiCall "GET" "dns_records", Effect.apiCall "GET" "dns_records"]) := by
        simp [ensureDnsStep, hl1, hl2, addRecord, mkCnameRecord, List.filter_append,
          hwempty, hhempty, hwne]
      exact ⟨_, _, _, h1, hcount, h2, by decide⟩

/-- Witness for claim C4: on an empty remote state, ensuring the
explicit CNAME app.example.com creates one record, and the second run
returns the same state with no create call. -/
theorem dns_ensure_idempotent_witness :
    countCnameNamed remoteEmpty "app.example.com" = 0 ∧
    (∃ r1 e1 e2,
      ensureDnsStep remoteEmpty {} (some "app.example.com") "dev.example.com"
          "example.com" "tun1" "cmt" "rid1" = .ok (r1, e1) ∧
      countCnameNamed r1 "app.example.com" = 1 ∧
      ensureDnsStep r1 {} (some "app.example.com") "dev.example.com"
          "example.com" "tun1" "cmt" "rid2" = .ok (r1, e2) ∧
      Effect.apiCall "POST" "dns_records" ∉ e2) :=
  ⟨by decide,
    (dns_ensure_idempotent remoteEmpty {} "dev.example.com" "example.com" "tun1"
      "cmt" "rid1" "rid2" rfl rfl rfl).1 "app.example.com" (by decide)⟩

/-- The certificate deletion loop succeeds whenever every individual
certificate-pack delete succeeds. -/
theorem deleteCertPacks_ok (fl : Failures)
    (hcd : ∀ cid, fl.certDelete cid = false) :
    ∀ (certs : List CertPack) (remote : Remote),
      ∃ r2 e2, deleteCertPacks remote fl certs = .ok (r2, e2) := by
  intro certs
  induction certs with
  | nil =>
      intro remote
      exact ⟨remote, [], rfl⟩
  | cons c cs ih =>
      intro remote
      obtain ⟨r2, e2, h2⟩ :=
        ih { remote with certPacks := remote.certPacks.filter (fun p => p.id != c.id) }
      refine ⟨r2, Effect.apiCall "DELETE" "ssl/certificate_packs" :: e2, ?_⟩
      simp [deleteCertPacks, hcd, h2]

/-- Claim C5 (amended): failures in DNS cleanup (the listing or any
individual record delete) and in the certificate mismatch listing are
swallowed and never abort the auto-cleanup block of the start routine;
whenever every certificate-pack delete succeeds, auto-cleanup returns
successfully regardless of those failures.  (An individual
certificate-pack delete failure, by contrast, aborts the start — see the
counterexample.) -/
theorem cleanup_nonfatal_except_cert_delete (remote : Remote) (fl : Failures)
    (dnsComment : String) (dnsOption : Option String)
    (host tn tid : String)
    (hcd : ∀ cid, fl.certDelete cid = false) :
    exceptIsOk (runAutoCleanup remote fl dnsComment dnsOption host tn tid) = true := by
  obtain ⟨r2, e2, h2⟩ := deleteCertPacks_ok fl hcd
    (findMismatchedSslCertificates
      (cleanupMismatchedDnsRecords remote fl dnsComment dnsOption host tid).1
      fl tn host).1
    (cleanupMismatchedDnsRecords remote fl dnsComment dnsOption host tid).1
  simp [runAutoCleanup, h2, exceptIsOk]

/-- Witness for claim C5 (amended): with failing DNS listing, failing
DNS deletes and a failing certificate listing, auto-cleanup still
returns successfully. -/
theorem cleanup_nonfatal_witness :
    exceptIsOk (runAutoCleanup remoteC5 flNoisy "unplugin-cloudflare-tunnel:dev-tunnel"
      none "dev.example.com" "dev-tunnel" "tun1") = true :=
  cleanup_nonfatal_except_cert_delete remoteC5 flNoisy
    "unplugin-cloudflare-tunnel:dev-tunnel" none "dev.example.com" "dev-tunnel"
    "tun1" (fun _ => rfl)


/-- Claim C5 counterexample: a named-mode start against a remote state
with one mismatched certificate pack whose delete call fails aborts with
that API error — the certificate-pack deletes inside the auto-cleanup
block are unguarded, so this cleanup failure propagates out of the start
routine, refuting the claim as stated. -/
theorem cert_delete_failure_aborts_start :
    (configureServerModel cfgNamedW envC5 {}).2.1 =
      .error ("[unplugin-cloudflare-tunnel] API request failed: delete certificate_pack") := by
  rfl

/-- A character list is a Boolean prefix of itself followed by anything. -/
theorem isPrefixOf_append_self : ∀ (l t : List Char), l.isPrefixOf (l ++ t) = true
  | [], _ => List.isPrefixOf_nil_left
  | c :: l, t => by
      simp [List.isPrefixOf, isPrefixOf_append_self l t]

/-- Substring containment holds for any extension of the sought list. -/
theorem listContainsSub_append_self (l t : List Char) :
    listContainsSub l (l ++ t) = true := by
  cases l with
  | nil => cases t <;> simp [listContainsSub]
  | cons c cs => simp [listContainsSub, isPrefixOf_append_self]

/-- Any string built by prefixing the marker contains the marker. -/
theorem includesMarker_marker_append (s : String) :
    includesMarker (marker ++ s) = true := by
  have hdata : (marker ++ s).toList = marker.toList ++ s.toList := by
    simp [String.toList, String.data_append]
  rw [includesMarker, hdata]
  exact listContainsSub_append_self _ _

/-- The cf catch clause always re-raises a marker-carrying message. -/
theorem includesMarker_wrapCaught (msg : String) :
    includesMarker (wrapCaught msg) = true := by
  unfold wrapCaught
  by_cases hm : includesMarker msg = true
  · simp [hm]
  · have hf : includesMarker msg = false := by simpa using hm
    simp only [hf, Bool.false_eq_true, if_false]
    rw [String.append_assoc]
    exact includesMarker_marker_append _

/-- Claim C6 counterexample: a 2xx response whose body fails envelope
schema validation makes cf raise an error even though the response is
not non-2xx, there is no schema-validated envelope with success false,
and no result schema was supplied — refuting the claimed "iff" over
those three conditions. -/
theorem cf_error_beyond_claimed_conditions :
    exceptIsOk (cf respBadEnvelope (none : Option (Unit → Except String Unit))) = false ∧
    respBadEnvelope.ok = true ∧
    exceptIsOk respBadEnvelope.envelope = false := ⟨rfl, rfl, rfl⟩

/-- Claim C6 (amended): cf raises an error iff the response is non-2xx,
or the envelope fails schema validation, or the validated envelope has
success false, or a supplied result schema fails to validate; on a
successful envelope with a supplied schema it returns exactly the
validated result value; and every raised error message carries the
plugin marker. -/
theorem cf_error_conditions {r t : Type} (resp : HttpResp r)
    (schema? : Option (r → Except String t)) :
    (exceptIsOk (cf resp schema?) = false ↔
      resp.ok = false ∨ exceptIsOk resp.envelope = false ∨
        (∃ env, resp.envelope = .ok env ∧
          (env.success = false ∨
            ∃ sch, schema? = some sch ∧ exceptIsOk (sch env.result) = false))) ∧
    (∀ env sch v, resp.ok = true → resp.envelope = .ok env → env.success = true →
      schema? = some sch → sch env.result = .ok v →
      cf resp schema? = .ok (Sum.inr v)) ∧
    (∀ msg, cf resp schema? = .error msg → includesMarker msg = true) := by
  obtain ⟨ok, status, statusText, bodyText, envlp⟩ := resp
  refine ⟨?_, ?_, ?_⟩
  · cases ok
    · simp [cf, exceptIsOk]
    · cases envlp with
      | error z => simp [cf, exceptIsOk]
      | ok env =>
          cases hsucc : env.success
          · simp [cf, exceptIsOk, hsucc]
          · cases schema? with
            | none => simp [cf, exceptIsOk, hsucc]
            | some sch =>
                cases hres : sch env.result with
                | ok v => simp [cf, exceptIsOk, hsucc, hres]
                | error z => simp [cf, exceptIsOk, hsucc, hres]
  · intro env sch v hok henv hsucc hsch hres
    subst hok
    subst henv
    subst hsch
    simp [cf, hsucc, hres]
  · intro msg hmsg
    cases ok
    · simp [cf] at hmsg
      rw [← hmsg]
      exact includesMarker_wrapCaught _
    · cases envlp with
      | error z =>
          simp [cf] at hmsg
          rw [← hmsg]
          exact includesMarker_wrapCaught _
      | ok env =>
          cases hsucc : env.success
          · simp [cf, hsucc] at hmsg
            rw [← hmsg]
            exact includesMarker_wrapCaught _
          · cases schema? with
            | none => simp [cf, hsucc] at hmsg
            | some sch =>
                cases hres : sch env.result with
                | ok v => simp [cf, hsucc, hres] at hmsg
                | error z =>
                    simp [cf, hsucc, hres] at hmsg
                    rw [← hmsg]
                    exact includesMarker_wrapCaught _

/-- Witness for claim C6 (amended): on a 2xx response with a successful
envelope and a supplied result schema, cf returns exactly the validated
result value. -/
theorem cf_error_conditions_witness :
    cf respGoodW (some schemaOkW) = .ok (Sum.inr 43) :=
  (cf_error_conditions respGoodW (some schemaOkW)).2.1 ⟨true, none, none, 42⟩
    schemaOkW 43 rfl rfl rfl rfl rfl

/-- A reuse invocation in isolation: against a state holding a live
child, a stored fingerprint equal to the one this invocation computes,
and a stored resolved URL, the start returns that URL with an empty
effect trace, clears the shutting-down flag and re-registers exit
handlers, leaving everything else untouched. -/
theorem start_reuse_step (cfg : ResolvedConfig) (env : Env) (st : GState)
    (c : TunnelChild) (u : String)
    (hc : st.child = some c) (hk : c.killed = false)
    (hh : st.configHash =
      some (newConfigHash (fingerprintOf cfg (computePort cfg env))))
    (hu : st.tunnelUrl = some u) :
    viteConfigureServer cfg env st =
      ({ st with shuttingDown := false, exitHandlersRegistered := true },
        .ok u, []) := by
  obtain ⟨ch, hash, sd, ehr, tu⟩ := st
  dsimp only at hc hh hu
  subst hc
  subst hh
  subst hu
  simp [viteConfigureServer, configureServerModel, hk]

/-- Every successful fresh start ends with a live child and the freshly
computed fingerprint stored. -/
theorem startFresh_success_state (cfg : ResolvedConfig) (env : Env)
    (st : GState) (port : Nat) (newHash : String) (u : String)
    (h : (startFresh cfg env st port newHash).2.1 = .ok u) :
    ∃ c, (startFresh cfg env st port newHash).1.child = some c ∧
      c.killed = false ∧
      (startFresh cfg env st port newHash).1.configHash = some newHash := by
  by_cases hq : cfg.isQuickMode = true
  · rcases hsp : env.spawnQuick (getLocalTarget env.serverHost port) with ⟨pid, res⟩
    cases res with
    | ok url =>
        refine ⟨⟨pid, false⟩, ?_, rfl, ?_⟩ <;> simp [startFresh, hq, hsp]
    | error msg =>
        exfalso
        simp [startFresh, hq, hsp] at h
  · have hqf : cfg.isQuickMode = false := by simpa using hq
    cases hnf : namedFlowCore cfg env port with
    | ok pe =>
        rcases pe with ⟨pid, effs⟩
        refine ⟨⟨pid, false⟩, ?_, rfl, ?_⟩ <;> simp [startFresh, hqf, hnf]
    | error msg =>
        exfalso
        simp [startFresh, hqf, hnf] at h

/-- Every successful start invocation — reuse or fresh — ends with a
live child and a stored fingerprint equal to the one it computed. -/
theorem configureServer_success_state (cfg : ResolvedConfig) (env : Env)
    (st0 : GState) (u : String)
    (h : (configureServerModel cfg env st0).2.1 = .ok u) :
    ∃ c, (configureServerModel cfg env st0).1.child = some c ∧
      c.killed = false ∧
      (configureServerModel cfg env st0).1.configHash =
        some (newConfigHash (fingerprintOf cfg (computePort cfg env))) := by
  obtain ⟨ch, hash, sd, ehr, tu⟩ := st0
  cases ch with
  | none =>
      simp only [configureServerModel] at h ⊢
      exact startFresh_success_state cfg env _ _ _ u h
  | some c =>
      by_cases hk : c.killed = true
      · simp only [configureServerModel, hk] at h ⊢
        exact startFresh_success_state cfg env _ _ _ u h
      · have hkf : c.killed = false := by simpa using hk
        by_cases hbeq : (hash ==
            some (newConfigHash (fingerprintOf cfg (computePort cfg env)))) = true
        · refine ⟨c, ?_, hkf, ?_⟩ <;>
            simp [configureServerModel, hkf, hbeq]
          exact eq_of_beq hbeq
        · have hbf : (hash ==
              some (newConfigHash (fingerprintOf cfg (computePort cfg env)))) = false := by
            simpa using hbeq
          simp only [configureServerModel, hkf, hbf, Bool.not_false, Bool.true_and,
            Bool.false_eq_true, if_false] at h ⊢
          exact startFresh_success_state cfg env _ _ _ u h

/-- Every successful start invocation through the vite wrapper also
stores the resolved URL in the tunnel-URL promise. -/
theorem vite_success_state (cfg : ResolvedConfig) (env : Env)
    (st0 : GState) (u : String)
    (h : (viteConfigureServer cfg env st0).2.1 = .ok u) :
    ∃ c, (viteConfigureServer cfg env st0).1.child = some c ∧
      c.killed = false ∧
      (viteConfigureServer cfg env st0).1.configHash =
        some (newConfigHash (fingerprintOf cfg (computePort cfg env))) ∧
      (viteConfigureServer cfg env st0).1.tunnelUrl = some u := by
  have hrun : (viteConfigureServer cfg env st0).2.1 =
      (configureServerModel cfg env st0).2.1 := rfl
  rw [hrun] at h
  obtain ⟨c, h1, h2, h3⟩ := configureServer_success_state cfg env st0 u h
  refine ⟨c, ?_, h2, ?_, ?_⟩
  · simpa [viteConfigureServer] using h1
  · simpa [viteConfigureServer] using h3
  · simp [viteConfigureServer, h]

/-- Claim C1: if a first start invocation succeeds with URL u, then a
second start invocation in the same process whose configuration yields
an identical fingerprint — the first invocation's daemon still being
alive — spawns no process, makes no reconciliation (API) calls (empty
effect trace), returns exactly the previously resolved URL u, and only
clears the shutting-down flag and re-registers exit handlers. -/
theorem start_reuse_identical_fingerprint (cfg1 cfg2 : ResolvedConfig)
    (env1 env2 : Env) (st0 : GState) (u : String)
    (h1 : (viteConfigureServer cfg1 env1 st0).2.1 = .ok u)
    (hfp : newConfigHash (fingerprintOf cfg1 (computePort cfg1 env1)) =
      newConfigHash (fingerprintOf cfg2 (computePort cfg2 env2))) :
    viteConfigureServer cfg2 env2 (viteConfigureServer cfg1 env1 st0).1 =
      ({ (viteConfigureServer cfg1 env1 st0).1 with
          shuttingDown := false, exitHandlersRegistered := true },
        .ok u, []) := by
  obtain ⟨c, hc, hk, hh, hu⟩ := vite_success_state cfg1 env1 st0 u h1
  exact start_reuse_step cfg2 env2 _ c u hc hk (by rw [← hfp]; exact hh) hu

/-- Witness for claim C1: a quick-mode start from the empty lifecycle
state succeeds, and re-running the identically configured start reuses
the live tunnel: same URL, empty effect trace. -/
theorem start_reuse_identical_fingerprint_witness :
    (viteConfigureServer cfgQuickW envQuickW {}).2.1 =
      .ok "https://abc-123.trycloudflare.com" ∧
    viteConfigureServer cfgQuickW envQuickW (viteConfigureServer cfgQuickW envQuickW {}).1 =
      ({ (viteConfigureServer cfgQuickW envQuickW {}).1 with
          shuttingDown := false, exitHandlersRegistered := true },
        .ok "https://abc-123.trycloudflare.com", []) := by
  constructor
  · rfl
  · exact start_reuse_identical_fingerprint cfgQuickW cfgQuickW envQuickW envQuickW
      {} "https://abc-123.trycloudflare.com" rfl rfl
